import Mathlib

/-!
Verification of the authentication and authorization core of a small ERP
system (FastAPI backend under `erp_backend/app` and a Streamlit client in
`erp_frontend/app.py`).  The definitions below are shallow embeddings of
the Python source: database tables become explicit lists, SQLAlchemy
`filter(...).first()` queries become `List.find?`, FastAPI `HTTPException`
becomes an error value carrying status code, detail string and the optional
`WWW-Authenticate` header, and wall-clock instants are Unix epoch seconds
as natural numbers.
-/

namespace Erp

/-- Error response produced by a FastAPI `HTTPException` together with the
`http_exception_handler` in `main.py`: a status code, a detail string, and
an optional `WWW-Authenticate` header value. -/
structure HttpError where
  status : Nat
  detail : String
  wwwAuthenticate : Option String
deriving DecidableEq

/-- Row of `models.User`: id, unique username, optional email, password
hash and the active flag.  `date_joined` is never consulted by the auth
core and is omitted. -/
structure User where
  id : Nat
  username : String
  email : Option String
  hashed_password : String
  is_active : Bool
deriving DecidableEq

/-- Row of `models.InventoryItem`, restricted to the fields the guarded
endpoints consult or update (`description`, `price` and the timestamps
play no role in any claim and are omitted). -/
structure Item where
  id : Nat
  name : String
  quantity : Nat
  owner_id : Nat
deriving DecidableEq

/-- `crud.get_user_by_username`: first row whose `username` column matches. -/
def get_user_by_username (db : List User) (username : String) : Option User :=
  db.find? (fun u => u.username == username)

/-- `crud.get_user_by_email`: first row whose `email` column matches. -/
def get_user_by_email (db : List User) (email : String) : Option User :=
  db.find? (fun u => u.email == some email)

/-- `crud.get_item`: first row whose `id` column matches. -/
def get_item (db : List Item) (item_id : Nat) : Option Item :=
  db.find? (fun it => it.id == item_id)

/-- `auth.SECRET_KEY` (auth.py line 14): a hardcoded module-level literal. -/
def SECRET_KEY : String := "your-secret-key-please-change-in-production"

/-- `auth.ACCESS_TOKEN_EXPIRE_MINUTES` (auth.py line 16). -/
def ACCESS_TOKEN_EXPIRE_MINUTES : Nat := 30

/-- Claims of a JWT payload as built by `auth.create_access_token`: the
`sub` claim (absent when the data dict carried none), issued-at and expiry
as epoch seconds. -/
structure TokenPayload where
  sub : Option String
  iat : Nat
  exp : Nat
deriving DecidableEq

/-- Wire token as handled by `jose.jwt`: either an unparseable string, or a
well-formed token whose signature was computed with some key. -/
inductive RawToken where
  | malformed
  | signed (payload : TokenPayload) (key : String)
deriving DecidableEq

/-- Failure kinds of `jose.jwt.decode`; `expiredSignature` models
`ExpiredSignatureError`, the others the remaining `JWTError` cases.
`auth.get_current_user` catches all of them uniformly as `JWTError`. -/
inductive JWTError where
  | malformedToken
  | invalidSignature
  | expiredSignature
deriving DecidableEq

/-- `jose.jwt.decode(token, key, algorithms)`: rejects an unparseable
token, a signature made with a different key, and an expired token
(python-jose raises `ExpiredSignatureError` exactly when `exp < now`,
with zero leeway); otherwise yields the payload. -/
def jwtDecode (tok : RawToken) (key : String) (now : Nat) :
    Except JWTError TokenPayload :=
  match tok with
  | .malformed => .error .malformedToken
  | .signed payload k =>
    if k ≠ key then .error .invalidSignature
    else if payload.exp < now then .error .expiredSignature
    else .ok payload

/-- `auth.create_access_token`: stamps the payload with `iat = now` and
`exp = now + expires_delta` (defaulting to 15 minutes when no delta is
passed) and signs it with `SECRET_KEY`.  Only the `sub` entry of the data
dict is ever consulted downstream, so the payload carries just that claim
plus the two timestamps. -/
def create_access_token (sub : Option String) (now : Nat)
    (expires_delta : Option Nat) : RawToken :=
  .signed { sub := sub, iat := now, exp := now + expires_delta.getD (15 * 60) }
    SECRET_KEY

/-- The `credentials_exception` of `auth.get_current_user`. -/
def credentialsException : HttpError :=
  { status := 401, detail := "Could not validate credentials",
    wwwAuthenticate := some "Bearer" }

/-- The inactive-user rejection of `auth.get_current_user`. -/
def inactiveUserError : HttpError :=
  { status := 400, detail := "Inactive user", wwwAuthenticate := none }

/-- `auth.get_current_user`: decode the bearer token with `SECRET_KEY`
(any `JWTError` yields the 401 `credentials_exception`), require a `sub`
claim, resolve it through `crud.get_user_by_username` (a missing principal
also yields the 401), and reject a resolved but inactive principal with
HTTP 400. -/
def get_current_user (tok : RawToken) (db : List User) (now : Nat) :
    Except HttpError User :=
  match jwtDecode tok SECRET_KEY now with
  | .error _ => .error credentialsException
  | .ok payload =>
    match payload.sub with
    | none => .error credentialsException
    | some username =>
      match get_user_by_username db username with
      | none => .error credentialsException
      | some user =>
        if user.is_active then .ok user else .error inactiveUserError

/-- `crud.authenticate_user`: look the submitted string up as a username;
when that fails and the string contains the character `@`, look it up as
an email; finally check the password against the stored hash with the
passlib verifier (passed here as the function `verify`, since the hashing
scheme itself is an external library). -/
def authenticate_user (verify : String → String → Bool) (db : List User)
    (username password : String) : Option User :=
  let byName := get_user_by_username db username
  let user := match byName with
    | some u => some u
    | none =>
      if username.contains '@' then get_user_by_email db username else none
  match user with
  | none => none
  | some u => if verify password u.hashed_password then some u else none

/-- The 401 rejection of `main.login_for_access_token`, carrying the one
generic message used for every failed login. -/
def incorrectCredentialsError : HttpError :=
  { status := 401, detail := "Incorrect username or password",
    wwwAuthenticate := some "Bearer" }

/-- The `schemas.Token` response body of a successful login. -/
structure TokenOut where
  access_token : RawToken
  token_type : String
deriving DecidableEq

/-- `main.login_for_access_token`: authenticate, and on failure raise the
generic 401; on success mint a token for the user's username with a ttl of
`ACCESS_TOKEN_EXPIRE_MINUTES` minutes. -/
def login_for_access_token (verify : String → String → Bool) (db : List User)
    (username password : String) (now : Nat) : Except HttpError TokenOut :=
  match authenticate_user verify db username password with
  | none => .error incorrectCredentialsError
  | some user =>
    .ok { access_token := create_access_token (some user.username) now
            (some (ACCESS_TOKEN_EXPIRE_MINUTES * 60)),
          token_type := "bearer" }

/-- The 404 rejection shared by the three guarded item endpoints. -/
def itemNotFoundError : HttpError :=
  { status := 404, detail := "Item not found", wwwAuthenticate := none }

/-- The 403 rejection shared by the three guarded item endpoints. -/
def notOwnerError : HttpError :=
  { status := 403, detail := "Not enough permissions", wwwAuthenticate := none }

/-- The `schemas.InventoryItemUpdate` patch body, restricted to the fields
kept in `Item`; an absent field is excluded from the update. -/
structure InventoryItemUpdate where
  name : Option String
  quantity : Option Nat
deriving DecidableEq

namespace crud

/-- `crud.update_item`: apply each field present in the patch dict to the
row (the `setattr` loop); `id` and `owner_id` are not part of the patch
schema and stay unchanged. -/
def update_item (db_item : Item) (item_update : InventoryItemUpdate) : Item :=
  { db_item with
    name := item_update.name.getD db_item.name,
    quantity := item_update.quantity.getD db_item.quantity }

/-- `crud.delete_item`: look the row up again, raise 404 when it is gone,
otherwise remove it from the table. -/
def delete_item (db : List Item) (item_id : Nat) :
    Except HttpError (List Item) :=
  match get_item db item_id with
  | none => .error itemNotFoundError
  | some _ => .ok (db.eraseP (fun it => it.id == item_id))

/-- The `schemas.UserCreate` registration body. -/
structure UserCreate where
  username : String
  email : Option String
  password : String
deriving DecidableEq

/-- `crud.create_user`: reject a taken username, then (when an email was
supplied) a taken email, both as `ValueError` with a specific message;
otherwise hash the password (the passlib hasher is the function `hash`)
and append the new active row, its id assigned by the store's
autoincrement.  Returns the updated table with the new row. -/
def create_user (hash : String → String) (db : List User) (user : UserCreate) :
    Except String (List User × User) :=
  match get_user_by_username db user.username with
  | some _ => .error "Username already registered"
  | none =>
    let emailTaken := match user.email with
      | some e => (get_user_by_email db e).isSome
      | none => false
    if emailTaken then .error "Email already registered"
    else
      let db_user : User :=
        { id := db.foldl (fun m v => max m v.id) 0 + 1,
          username := user.username,
          email := user.email,
          hashed_password := hash user.password,
          is_active := true }
      .ok (db ++ [db_user], db_user)

end crud

namespace main

/-- `main.read_item` (GET /api/items/\x7bitem_id\x7d): 404 when no row has
that id, 403 when the row's owner is not the authenticated principal,
otherwise the row. -/
def read_item (db : List Item) (item_id : Nat) (current_user : User) :
    Except HttpError Item :=
  match get_item db item_id with
  | none => .error itemNotFoundError
  | some db_item =>
    if db_item.owner_id ≠ current_user.id then .error notOwnerError
    else .ok db_item

/-- `main.update_item` (PUT /api/items/\x7bitem_id\x7d): same guard as
`read_item`, then the patch is applied through `crud.update_item`. -/
def update_item (db : List Item) (item_id : Nat)
    (item : InventoryItemUpdate) (current_user : User) :
    Except HttpError Item :=
  match get_item db item_id with
  | none => .error itemNotFoundError
  | some db_item =>
    if db_item.owner_id ≠ current_user.id then .error notOwnerError
    else .ok (crud.update_item db_item item)

/-- `main.delete_item` (DELETE /api/items/\x7bitem_id\x7d): same guard,
then the row is removed through `crud.delete_item`; the new table is
returned. -/
def delete_item (db : List Item) (item_id : Nat) (current_user : User) :
    Except HttpError (List Item) :=
  match get_item db item_id with
  | none => .error itemNotFoundError
  | some db_item =>
    if db_item.owner_id ≠ current_user.id then .error notOwnerError
    else crud.delete_item db item_id

/-- Observable outcome of POST /api/register. -/
inductive RegisterOutcome where
  | created (user : User)
  | errorResponse (status : Nat) (detail : String)
deriving DecidableEq

/-- `main.register_user` (POST /api/register) composed with the error
handlers of main.py: the endpoint simply calls `crud.create_user`, and a
`ValueError` raised there is caught by no specific handler, so
`global_exception_handler` (main.py line 208) answers HTTP 500 with the
generic detail "Internal server error".  On success the endpoint returns
201 with the created user. -/
def register_user (hash : String → String) (db : List User)
    (user : crud.UserCreate) : List User × RegisterOutcome :=
  match crud.create_user hash db user with
  | .ok (db2, created) => (db2, .created created)
  | .error _ => (db, .errorResponse 500 "Internal server error")

end main

namespace frontend

/-- Client-side session slots of `st.session_state` consulted by
`check_session_timeout` and the login gate of `main` (erp_frontend/app.py);
the inventory caches play no role in the session claims and are omitted. -/
structure SessionState where
  token : Option RawToken
  user : Option String
  last_activity : Option Nat
deriving DecidableEq

/-- Session with token, user and last-activity all cleared. -/
def clearedSession : SessionState :=
  { token := none, user := none, last_activity := none }

/-- `check_session_timeout` (erp_frontend/app.py line 59): when a
last-activity stamp exists and the inactivity exceeds 30 minutes, clear
token, user and last-activity, report the timeout and return false;
otherwise stamp last-activity with now and return true. -/
def check_session_timeout (s : SessionState) (now : Nat) :
    SessionState × Bool :=
  match s.last_activity with
  | some t =>
    if now - t > 30 * 60 then (clearedSession, false)
    else ({ s with last_activity := some now }, true)
  | none => ({ s with last_activity := some now }, true)

/-- Observable outcome of one run of the client's `main`: the login form
(no token held), an inactivity timeout (nothing sent to the server), or
proceeding to the authenticated interface (the cached token is attached to
the API requests that follow). -/
inductive MainOutcome where
  | loginForm
  | timedOut
  | proceed
deriving DecidableEq

/-- The session-relevant skeleton of the client's `main` (erp_frontend
app.py line 480): show the login form when token or user is missing;
otherwise run `check_session_timeout` and return early on timeout, else
proceed to the authenticated interface. -/
def mainStep (s : SessionState) (now : Nat) : SessionState × MainOutcome :=
  if s.token.isNone || s.user.isNone then (s, .loginForm)
  else
    match check_session_timeout s now with
    | (s2, false) => (s2, .timedOut)
    | (s2, true) => (s2, .proceed)

end frontend

/-- Startup of the auth module as a function of the process environment:
auth.py line 14 assigns `SECRET_KEY` the hardcoded literal and never reads
the environment (the module does not even import `os`), so module
initialization always succeeds and always yields that literal, whatever
the environment holds. -/
def authStartup (_env : List (String × String)) : Except String String :=
  .ok SECRET_KEY

/-- Startup as the spec demands it (spec §6, "Process-wide secret"):
the secret comes from the environment and startup fails fast when it is
absent.  Stated only to be compared with `authStartup`. -/
def authStartupSpec (env : List (String × String)) : Except String String :=
  match env.lookup "SECRET_KEY" with
  | none => .error "missing signing secret"
  | some k => .ok k

/-- Modelled from the spec: the passlib bcrypt `CryptContext` behind
`crud.get_password_hash` and `crud.verify_password` is an external library
whose code is not under src/.  Following §4.1, a digest is self-describing:
it records the salt alongside a message-authentication value computed from
salt and secret.  The salt drawn freshly at random on each call of the
hash is made an explicit argument, and collision resistance ("wrong secret
verifies only with negligible probability") is idealized as injectivity of
the mac in the secret. -/
structure Digest where
  salt : Nat
  mac : Nat × String
deriving DecidableEq

/-- Modelled from the spec: the keyed digest core; pairing salt with the
secret is the injective idealization of the bcrypt compression. -/
def bcryptMac (salt : Nat) (secret : String) : Nat × String :=
  (salt, secret)

/-- Modelled from the spec: `crud.get_password_hash` with the random salt
explicit — the digest embeds the salt and the mac of salt and secret. -/
def get_password_hash (password : String) (salt : Nat) : Digest :=
  { salt := salt, mac := bcryptMac salt password }

/-- Modelled from the spec: `crud.verify_password` — recompute the mac
with the salt embedded in the digest and compare. -/
def verify_password (plain_password : String) (digest : Digest) : Bool :=
  bcryptMac digest.salt plain_password == digest.mac

/-! Theorems for the claims. -/

/-- C1: for every guarded item operation (read, update, delete of
/api/items/\x7bitem_id\x7d) invoked by an authenticated principal, a
missing record yields the 404 response (for every caller, so existence is
decided before ownership), an existing record owned by someone else yields
the 403 response, and a record owned by the caller lets the operation
proceed; the 404 and 403 responses are distinct values. -/
theorem C1_item_guard (items : List Item) (item_id : Nat) (current_user : User)
    (patch : InventoryItemUpdate) :
    (get_item items item_id = none →
      main.read_item items item_id current_user = .error itemNotFoundError ∧
      main.update_item items item_id patch current_user = .error itemNotFoundError ∧
      main.delete_item items item_id current_user = .error itemNotFoundError) ∧
    (∀ it, get_item items item_id = some it → it.owner_id ≠ current_user.id →
      main.read_item items item_id current_user = .error notOwnerError ∧
      main.update_item items item_id patch current_user = .error notOwnerError ∧
      main.delete_item items item_id current_user = .error notOwnerError) ∧
    (∀ it, get_item items item_id = some it → it.owner_id = current_user.id →
      main.read_item items item_id current_user = .ok it ∧
      main.update_item items item_id patch current_user =
        .ok (crud.update_item it patch) ∧
      main.delete_item items item_id current_user =
        .ok (items.eraseP (fun x => x.id == item_id))) ∧
    itemNotFoundError.status = 404 ∧ notOwnerError.status = 403 ∧
    itemNotFoundError ≠ notOwnerError := by
  refine ⟨?_, ?_, ?_, rfl, rfl, by decide⟩
  · intro h
    simp [main.read_item, main.update_item, main.delete_item, h]
  · intro it hit howner
    simp [main.read_item, main.update_item, main.delete_item, hit, howner]
  · intro it hit howner
    simp [main.read_item, main.update_item, main.delete_item,
      crud.delete_item, hit, howner]

/-- Witness for C1 on a one-row table owned by principal 10: item 2 is
absent (404), principal 99 is not the owner of item 1 (403), and principal
10 reads, updates and deletes item 1 successfully. -/
theorem C1_item_guard_witness :
    main.read_item [{ id := 1, name := "Widget", quantity := 5, owner_id := 10 }]
        2 { id := 10, username := "alice", email := none,
            hashed_password := "h", is_active := true }
      = .error itemNotFoundError ∧
    main.read_item [{ id := 1, name := "Widget", quantity := 5, owner_id := 10 }]
        1 { id := 99, username := "bob", email := none,
            hashed_password := "h", is_active := true }
      = .error notOwnerError ∧
    main.read_item [{ id := 1, name := "Widget", quantity := 5, owner_id := 10 }]
        1 { id := 10, username := "alice", email := none,
            hashed_password := "h", is_active := true }
      = .ok { id := 1, name := "Widget", quantity := 5, owner_id := 10 } := by
  refine ⟨?_, ?_, ?_⟩
  · exact ((C1_item_guard _ 2 _ { name := none, quantity := none }).1
      (by decide)).1
  · exact (((C1_item_guard _ 1 _ { name := none, quantity := none }).2.1
      { id := 1, name := "Widget", quantity := 5, owner_id := 10 }
      (by decide) (by decide))).1
  · exact (((C1_item_guard _ 1 _ { name := none, quantity := none }).2.2.1
      { id := 1, name := "Widget", quantity := 5, owner_id := 10 }
      (by decide) (by decide))).1

/-- C2: a login attempt with a username unknown to the store (neither a
username nor an email of any principal) and a login attempt with a known
username but a password the verifier rejects produce the same observable
outcome — the 401 response carrying the one generic message "Incorrect
username or password". -/
theorem C2_login_indistinguishable (verify : String → String → Bool)
    (db : List User) (u1 p1 u2 p2 : String) (user : User) (now1 now2 : Nat)
    (hname : get_user_by_username db u1 = none)
    (hemail : get_user_by_email db u1 = none)
    (hknown : get_user_by_username db u2 = some user)
    (hwrong : verify p2 user.hashed_password = false) :
    login_for_access_token verify db u1 p1 now1
      = .error incorrectCredentialsError ∧
    login_for_access_token verify db u2 p2 now2
      = .error incorrectCredentialsError ∧
    login_for_access_token verify db u1 p1 now1
      = login_for_access_token verify db u2 p2 now2 ∧
    incorrectCredentialsError.status = 401 ∧
    incorrectCredentialsError.detail = "Incorrect username or password" := by
  have h1 : login_for_access_token verify db u1 p1 now1
      = .error incorrectCredentialsError := by
    cases hat : u1.contains '@' <;>
      simp [login_for_access_token, authenticate_user, hname, hemail, hat]
  have h2 : login_for_access_token verify db u2 p2 now2
      = .error incorrectCredentialsError := by
    simp [login_for_access_token, authenticate_user, hknown, hwrong]
  exact ⟨h1, h2, h1.trans h2.symm, rfl, rfl⟩

/-- Witness for C2: a store holding only alice; "mallory" is unknown, and
alice with a rejected password gets the identical generic 401. -/
theorem C2_login_indistinguishable_witness :
    login_for_access_token (fun _ _ => false)
        [{ id := 1, username := "alice", email := some "alice@example.com",
           hashed_password := "H", is_active := true }]
        "mallory" "pw1" 5 = .error incorrectCredentialsError ∧
    login_for_access_token (fun _ _ => false)
        [{ id := 1, username := "alice", email := some "alice@example.com",
           hashed_password := "H", is_active := true }]
        "alice" "pw2" 9 = .error incorrectCredentialsError := by
  have h := C2_login_indistinguishable (fun _ _ => false)
    [{ id := 1, username := "alice", email := some "alice@example.com",
       hashed_password := "H", is_active := true }]
    "mallory" "pw1" "alice" "pw2"
    { id := 1, username := "alice", email := some "alice@example.com",
      hashed_password := "H", is_active := true }
    5 9 (by decide) (by decide) (by decide) (by decide)
  exact ⟨h.1, h.2.1⟩

/-- C3: a token minted by the login path at time t0 (ttl fixed at 30
minutes) resolves to its principal at t0 + 29 minutes and is rejected at
t0 + 31 minutes: the decoder reports it expired and `get_current_user`
answers the 401 unauthorized outcome. -/
theorem C3_token_ttl (verify : String → String → Bool) (db : List User)
    (username password : String) (user : User) (t0 : Nat)
    (hauth : authenticate_user verify db username password = some user)
    (hlook : get_user_by_username db user.username = some user)
    (hact : user.is_active = true) :
    login_for_access_token verify db username password t0
      = .ok { access_token := create_access_token (some user.username) t0
                (some (ACCESS_TOKEN_EXPIRE_MINUTES * 60)),
              token_type := "bearer" } ∧
    get_current_user (create_access_token (some user.username) t0
        (some (ACCESS_TOKEN_EXPIRE_MINUTES * 60))) db (t0 + 29 * 60)
      = .ok user ∧
    jwtDecode (create_access_token (some user.username) t0
        (some (ACCESS_TOKEN_EXPIRE_MINUTES * 60))) SECRET_KEY (t0 + 31 * 60)
      = .error .expiredSignature ∧
    get_current_user (create_access_token (some user.username) t0
        (some (ACCESS_TOKEN_EXPIRE_MINUTES * 60))) db (t0 + 31 * 60)
      = .error credentialsException := by
  refine ⟨by simp [login_for_access_token, hauth], ?_, ?_, ?_⟩
  · simp [get_current_user, create_access_token, jwtDecode,
      ACCESS_TOKEN_EXPIRE_MINUTES, hlook, hact]
  · simp [create_access_token, jwtDecode, ACCESS_TOKEN_EXPIRE_MINUTES]
  · simp [get_current_user, create_access_token, jwtDecode,
      ACCESS_TOKEN_EXPIRE_MINUTES]

/-- Witness for C3 at t0 = 1000 with active alice and a verifier that
accepts her stored hash. -/
theorem C3_token_ttl_witness :
    get_current_user (create_access_token (some "alice") 1000
        (some (ACCESS_TOKEN_EXPIRE_MINUTES * 60)))
        [{ id := 1, username := "alice", email := none,
           hashed_password := "H", is_active := true }] (1000 + 29 * 60)
      = .ok { id := 1, username := "alice", email := none,
              hashed_password := "H", is_active := true } ∧
    get_current_user (create_access_token (some "alice") 1000
        (some (ACCESS_TOKEN_EXPIRE_MINUTES * 60)))
        [{ id := 1, username := "alice", email := none,
           hashed_password := "H", is_active := true }] (1000 + 31 * 60)
      = .error credentialsException := by
  have h := C3_token_ttl (fun _ _ => true)
    [{ id := 1, username := "alice", email := none,
       hashed_password := "H", is_active := true }]
    "alice" "pw"
    { id := 1, username := "alice", email := none,
      hashed_password := "H", is_active := true }
    1000 (by decide) (by decide) (by decide)
  exact ⟨h.2.1, h.2.2.2⟩

/-- C4: every protected call whose token fails resolution — decode failure
(unparseable, bad signature, expired), a payload with no subject, or a
subject that no longer resolves to a principal — is answered with the 401
response carrying the header WWW-Authenticate: Bearer; a token that
resolves to a principal whose active flag is false is instead answered
with the 400 response. -/
theorem C4_resolution_failures (tok : RawToken) (db : List User) (now : Nat) :
    (∀ e, jwtDecode tok SECRET_KEY now = .error e →
      get_current_user tok db now = .error credentialsException) ∧
    (∀ p, jwtDecode tok SECRET_KEY now = .ok p → p.sub = none →
      get_current_user tok db now = .error credentialsException) ∧
    (∀ p s, jwtDecode tok SECRET_KEY now = .ok p → p.sub = some s →
      get_user_by_username db s = none →
      get_current_user tok db now = .error credentialsException) ∧
    (∀ p s user, jwtDecode tok SECRET_KEY now = .ok p → p.sub = some s →
      get_user_by_username db s = some user → user.is_active = false →
      get_current_user tok db now = .error inactiveUserError) ∧
    credentialsException.status = 401 ∧
    credentialsException.wwwAuthenticate = some "Bearer" ∧
    inactiveUserError.status = 400 := by
  refine ⟨?_, ?_, ?_, ?_, rfl, rfl, rfl⟩
  · intro e he
    simp [get_current_user, he]
  · intro p hp hsub
    simp [get_current_user, hp, hsub]
  · intro p s hp hsub hlook
    simp [get_current_user, hp, hsub, hlook]
  · intro p s user hp hsub hlook hinact
    simp [get_current_user, hp, hsub, hlook, hinact]

/-- Witness for C4: a malformed token, a token signed with another key, an
expired token, a token whose subject is unknown, and a token resolving to
an inactive account, each checked against a one-row store at time 2000. -/
theorem C4_resolution_failures_witness :
    get_current_user .malformed
        [{ id := 1, username := "carol", email := none,
           hashed_password := "H", is_active := false }] 2000
      = .error credentialsException ∧
    get_current_user (.signed { sub := some "carol", iat := 0, exp := 9000 }
        "other-key")
        [{ id := 1, username := "carol", email := none,
           hashed_password := "H", is_active := false }] 2000
      = .error credentialsException ∧
    get_current_user (.signed { sub := some "carol", iat := 0, exp := 1999 }
        SECRET_KEY)
        [{ id := 1, username := "carol", email := none,
           hashed_password := "H", is_active := false }] 2000
      = .error credentialsException ∧
    get_current_user (.signed { sub := some "dave", iat := 0, exp := 9000 }
        SECRET_KEY)
        [{ id := 1, username := "carol", email := none,
           hashed_password := "H", is_active := false }] 2000
      = .error credentialsException ∧
    get_current_user (.signed { sub := some "carol", iat := 0, exp := 9000 }
        SECRET_KEY)
        [{ id := 1, username := "carol", email := none,
           hashed_password := "H", is_active := false }] 2000
      = .error inactiveUserError := by
  refine ⟨?_, ?_, ?_, ?_, ?_⟩
  · exact (C4_resolution_failures .malformed _ 2000).1 .malformedToken rfl
  · exact (C4_resolution_failures _ _ 2000).1 .invalidSignature rfl
  · exact (C4_resolution_failures _ _ 2000).1 .expiredSignature rfl
  · exact (C4_resolution_failures _ _ 2000).2.2.1
      { sub := some "dave", iat := 0, exp := 9000 } "dave"
      rfl rfl (by decide)
  · exact (C4_resolution_failures _ _ 2000).2.2.2.1
      { sub := some "carol", iat := 0, exp := 9000 } "carol"
      { id := 1, username := "carol", email := none,
        hashed_password := "H", is_active := false }
      rfl rfl (by decide) rfl

/-- C5 (code bug): registering a username that already belongs to a
principal leaves the store unchanged, but the caller receives the generic
HTTP 500 "Internal server error" produced by the global exception handler
— not a distinct conflict failure — even though `crud.create_user` raised
the specific `ValueError` "Username already registered"; the same happens
for a duplicate email. -/
theorem C5_duplicate_registration_collapses_to_500 :
    main.register_user (fun s => s)
        [{ id := 1, username := "alice", email := some "alice@example.com",
           hashed_password := "H", is_active := true }]
        { username := "alice", email := some "fresh@example.com",
          password := "Passw0rd1" }
      = ([{ id := 1, username := "alice", email := some "alice@example.com",
            hashed_password := "H", is_active := true }],
         .errorResponse 500 "Internal server error") ∧
    crud.create_user (fun s => s)
        [{ id := 1, username := "alice", email := some "alice@example.com",
           hashed_password := "H", is_active := true }]
        { username := "alice", email := some "fresh@example.com",
          password := "Passw0rd1" }
      = .error "Username already registered" ∧
    main.register_user (fun s => s)
        [{ id := 1, username := "alice", email := some "alice@example.com",
           hashed_password := "H", is_active := true }]
        { username := "bob", email := some "alice@example.com",
          password := "Passw0rd1" }
      = ([{ id := 1, username := "alice", email := some "alice@example.com",
            hashed_password := "H", is_active := true }],
         .errorResponse 500 "Internal server error") := by
  refine ⟨rfl, rfl, rfl⟩

/-- C6 counterexample: the auth core starts with an empty environment and
yields the hardcoded key (while the spec-side startup refuses), and even
when the environment does carry a secret the started key is still the
hardcoded literal, not the environment's value — so the secret is neither
environment-supplied nor fail-fast on absence. -/
theorem C6_counterexample :
    authStartup [] = .ok "your-secret-key-please-change-in-production" ∧
    authStartupSpec [] = .error "missing signing secret" ∧
    authStartup [("SECRET_KEY", "env-supplied-key")]
      ≠ .ok "env-supplied-key" := by
  refine ⟨rfl, rfl, ?_⟩
  intro h
  simp [authStartup, SECRET_KEY] at h

/-- C6 amended: the signing secret is the hardcoded module-level literal
"your-secret-key-please-change-in-production"; the environment is never
consulted and the auth core starts (and signs with that literal) whatever
the environment holds, never refusing to start. -/
theorem C6_amended_hardcoded_secret (env : List (String × String)) :
    authStartup env = .ok "your-secret-key-please-change-in-production" := rfl

/-- C7 counterexample: with last-activity 0 and an interaction at exactly
30 minutes (1800 s), the client refreshes last-activity and keeps the
session (returns true), although now - last-activity < 30 minutes fails —
refuting "refreshes if and only if now - last-activity < 30 minutes". -/
theorem C7_counterexample :
    frontend.check_session_timeout
        { token := some .malformed, user := some "alice",
          last_activity := some 0 } 1800
      = ({ token := some .malformed, user := some "alice",
           last_activity := some 1800 }, true) ∧
    ¬ (1800 - 0 < 30 * 60) := ⟨rfl, by decide⟩

/-- C7 amended: for a session holding a token, a user and a last-activity
stamp, an interaction refreshes last-activity to now and proceeds if and
only if now - last-activity ≤ 30 minutes; when the inactivity strictly
exceeds 30 minutes the interaction clears token, user and last-activity,
reports the timeout without proceeding (so the stale token is not sent),
and the next interaction observably lands on the login form. -/
theorem C7_session_timeout (s : frontend.SessionState) (t now now2 : Nat)
    (htok : s.token.isSome) (huser : s.user.isSome)
    (hlast : s.last_activity = some t) :
    (now - t ≤ 30 * 60 →
      frontend.mainStep s now
        = ({ s with last_activity := some now }, .proceed)) ∧
    (now - t > 30 * 60 →
      frontend.mainStep s now = (frontend.clearedSession, .timedOut) ∧
      frontend.mainStep frontend.clearedSession now2
        = (frontend.clearedSession, .loginForm)) := by
  have htok2 : ¬ s.token = none := by
    intro h; rw [h] at htok; simp at htok
  have huser2 : ¬ s.user = none := by
    intro h; rw [h] at huser; simp at huser
  constructor
  · intro hle
    have hnot : ¬ (now - t > 30 * 60) := by omega
    simp [frontend.mainStep, frontend.check_session_timeout, hlast, hnot,
      Option.isNone_iff_eq_none, htok2, huser2]
  · intro hgt
    refine ⟨?_, rfl⟩
    simp [frontend.mainStep, frontend.check_session_timeout, hlast, hgt,
      Option.isNone_iff_eq_none, htok2, huser2]

/-- Witness for the amended C7: a session last active at 100 proceeds with
a refreshed stamp when interacted with at 1900 (1800 s later), while an
interaction at 1901 clears the session and reports the timeout, the next
run landing on the login form. -/
theorem C7_session_timeout_witness :
    frontend.mainStep
        { token := some .malformed, user := some "alice",
          last_activity := some 100 } 1900
      = ({ token := some .malformed, user := some "alice",
           last_activity := some 1900 }, .proceed) ∧
    frontend.mainStep
        { token := some .malformed, user := some "alice",
          last_activity := some 100 } 1901
      = (frontend.clearedSession, .timedOut) ∧
    frontend.mainStep frontend.clearedSession 1902
      = (frontend.clearedSession, .loginForm) := by
  have h1 := C7_session_timeout
    { token := some .malformed, user := some "alice", last_activity := some 100 }
    100 1900 1902 (by decide) (by decide) rfl
  have h2 := C7_session_timeout
    { token := some .malformed, user := some "alice", last_activity := some 100 }
    100 1901 1902 (by decide) (by decide) rfl
  exact ⟨h1.1 (by omega), (h2.2 (by omega)).1, (h2.2 (by omega)).2⟩

/-- C8 (hasher modelled from the spec, salt explicit): every secret
verifies against its own digest; hashing the same secret under two
different salts — two calls, each drawing fresh salt — yields two
different digests that both verify against the secret; and a digest of one
secret never verifies a different secret (the idealization of "false with
overwhelming probability"). -/
theorem C8_hash_verify_roundtrip (s s1 s2 : String) (salt salt1 salt2 : Nat)
    (hsalt : salt1 ≠ salt2) (hs : s1 ≠ s2) :
    verify_password s (get_password_hash s salt) = true ∧
    get_password_hash s salt1 ≠ get_password_hash s salt2 ∧
    verify_password s (get_password_hash s salt1) = true ∧
    verify_password s (get_password_hash s salt2) = true ∧
    verify_password s1 (get_password_hash s2 salt) = false := by
  refine ⟨?_, ?_, ?_, ?_, ?_⟩
  · simp [verify_password, get_password_hash]
  · intro h
    exact hsalt (congrArg Digest.salt h)
  · simp [verify_password, get_password_hash]
  · simp [verify_password, get_password_hash]
  · simp [verify_password, get_password_hash, bcryptMac]
    intro h
    exact absurd h hs

/-- Witness for C8 with secrets "hunter2" and "letmein" and salts 3 and 4. -/
theorem C8_hash_verify_roundtrip_witness :
    verify_password "hunter2" (get_password_hash "hunter2" 3) = true ∧
    get_password_hash "hunter2" 3 ≠ get_password_hash "hunter2" 4 ∧
    verify_password "letmein" (get_password_hash "hunter2" 3) = false := by
  have h := C8_hash_verify_roundtrip "hunter2" "letmein" "hunter2" 3 3 4
    (by decide) (by decide)
  exact ⟨h.1, h.2.1, h.2.2.2.2⟩

/-- C9: authentication never consults the active flag — whenever the
lookup-and-verify of `crud.authenticate_user` yields a principal whose
`is_active` is false, login still answers 200 with a freshly minted bearer
token, and only a later protected call resolving that token is rejected,
with the 400 inactive-user response. -/
theorem C9_login_ignores_active (verify : String → String → Bool)
    (db : List User) (username password : String) (user : User) (now : Nat)
    (hauth : authenticate_user verify db username password = some user)
    (hinact : user.is_active = false) :
    login_for_access_token verify db username password now
      = .ok { access_token := create_access_token (some user.username) now
                (some (ACCESS_TOKEN_EXPIRE_MINUTES * 60)),
              token_type := "bearer" } ∧
    (get_user_by_username db user.username = some user →
      get_current_user (create_access_token (some user.username) now
          (some (ACCESS_TOKEN_EXPIRE_MINUTES * 60))) db now
        = .error inactiveUserError) := by
  constructor
  · simp [login_for_access_token, hauth]
  · intro hlook
    simp [get_current_user, create_access_token, jwtDecode, hlook, hinact]

/-- Witness for C9: inactive carol logs in successfully at time 50 and the
minted token is then rejected with the 400 inactive-user response. -/
theorem C9_login_ignores_active_witness :
    login_for_access_token (fun _ _ => true)
        [{ id := 3, username := "carol2", email := none,
           hashed_password := "H", is_active := false }]
        "carol2" "pw" 50
      = .ok { access_token := create_access_token (some "carol2") 50
                (some (ACCESS_TOKEN_EXPIRE_MINUTES * 60)),
              token_type := "bearer" } ∧
    get_current_user (create_access_token (some "carol2") 50
        (some (ACCESS_TOKEN_EXPIRE_MINUTES * 60)))
        [{ id := 3, username := "carol2", email := none,
           hashed_password := "H", is_active := false }] 50
      = .error inactiveUserError := by
  have h := C9_login_ignores_active (fun _ _ => true)
    [{ id := 3, username := "carol2", email := none,
       hashed_password := "H", is_active := false }]
    "carol2" "pw"
    { id := 3, username := "carol2", email := none,
      hashed_password := "H", is_active := false }
    50 (by decide) rfl
  exact ⟨h.1, h.2 (by decide)⟩

/-- C10: when the submitted string matches no principal's username, the
email lookup is consulted exactly when the string contains the character
"@": with an "@" the outcome is that of authenticating against the row the
email lookup finds, and without an "@" authentication fails outright, even
if some principal's stored email equals the submitted string. -/
theorem C10_email_fallback (verify : String → String → Bool) (db : List User)
    (username password : String)
    (hname : get_user_by_username db username = none) :
    (username.contains '@' = true →
      authenticate_user verify db username password
        = match get_user_by_email db username with
          | none => none
          | some u =>
            if verify password u.hashed_password then some u else none) ∧
    (username.contains '@' = false →
      authenticate_user verify db username password = none) := by
  constructor
  · intro hat
    simp [authenticate_user, hname, hat]
  · intro hat
    simp [authenticate_user, hname, hat]

/-- Witness for C10: bob authenticates with his email address in the
username field, while a principal whose stored email is the "@"-free
string "strange" cannot be found through it, so that login fails. -/
theorem C10_email_fallback_witness :
    authenticate_user (fun p _ => p == "pw")
        [{ id := 7, username := "bob", email := some "bob@x.com",
           hashed_password := "H", is_active := true }]
        "bob@x.com" "pw"
      = some { id := 7, username := "bob", email := some "bob@x.com",
               hashed_password := "H", is_active := true } ∧
    authenticate_user (fun p _ => p == "pw")
        [{ id := 8, username := "sue", email := some "strange",
           hashed_password := "H", is_active := true }]
        "strange" "pw"
      = none := by
  constructor
  · have h := (C10_email_fallback (fun p _ => p == "pw")
      [{ id := 7, username := "bob", email := some "bob@x.com",
         hashed_password := "H", is_active := true }]
      "bob@x.com" "pw" (by decide)).1
      (by simp [String.contains_iff])
    rw [h]; decide
  · exact (C10_email_fallback (fun p _ => p == "pw")
      [{ id := 8, username := "sue", email := some "strange",
         hashed_password := "H", is_active := true }]
      "strange" "pw" (by decide)).2
      (by simp [Bool.eq_false_iff, String.contains_iff])

end Erp
